import Mathlib

/-!
Shallow embedding of `shp2dex/dex2nc.py`: the `.dex` → dataset conversion
routine `dex2ds` and the command-line output-naming logic.

Modelling conventions:
* a dataframe cell is `Cell`: a string, a (rational) number standing for a
  float, or `Cell.na` standing for `NaN` / missing;
* fallible library steps (CSV read with a float dtype, the dictionary
  lookup in `_num_flags`, `re.findall(...)[0]`, `pd.Timestamp`, the
  uniqueness requirement of `DataFrame.to_xarray`) are `Option`-valued,
  `none` standing for the uncaught Python exception that aborts the
  conversion of the file;
* floats are modelled as rationals (`Rat`); the exotic float spellings
  `nan`/`inf` accepted by the pandas parsers are outside the model.
-/

namespace Dex2nc

/-- Numeric value of a list of decimal digit characters (most significant first). -/
def digitsToNat (l : List Char) : Nat :=
  l.foldl (fun a c => 10 * a + (c.toNat - 48)) 0

/-- Parse the optional exponent suffix of a float literal: either the empty
remainder (exponent 0) or `e`/`E`, an optional sign, and at least one digit
consuming the whole remainder. -/
def parseExpPart (l : List Char) : Option Int :=
  match l with
  | [] => some 0
  | c :: rest =>
    if c = 'e' ∨ c = 'E' then
      let p : Bool × List Char :=
        match rest with
        | [] => (false, [])
        | c2 :: r2 =>
          if c2 = '-' then (true, r2)
          else if c2 = '+' then (false, r2)
          else (false, c2 :: r2)
      let ed := p.2.takeWhile Char.isDigit
      let r3 := p.2.dropWhile Char.isDigit
      if ed.isEmpty ∨ ¬ r3.isEmpty then none
      else some (if p.1 then -(digitsToNat ed : Int) else (digitsToNat ed : Int))
    else none

/-- The rational `m × 10 ^ e`, built with `mkRat` so that it normalizes. -/
def applyExp (m : Int) (e : Int) : Rat :=
  if 0 ≤ e then mkRat (m * (10 : Int) ^ e.toNat) 1 else mkRat m ((10 : Nat) ^ (-e).toNat)

/-- Decimal float literal parsing as done by the pandas C parser and
`pd.to_numeric`: optional sign, digits with an optional decimal point
(`4.`, `.5`, `9.9`, `10`), optional exponent. The value of
`[sign] ip . fp e E` is `sign * digits(ip ++ fp) * 10 ^ (E - len fp)`.
Returns `none` on any other string (e.g. `9+`, `missing`, `Fast-ice`). -/
def parseFloat (s : String) : Option Rat :=
  let p : Int × List Char :=
    match s.toList with
    | [] => ((1 : Int), [])
    | c :: r =>
      if c = '-' then ((-1 : Int), r)
      else if c = '+' then ((1 : Int), r)
      else ((1 : Int), c :: r)
  let ip := p.2.takeWhile Char.isDigit
  let l2 := p.2.dropWhile Char.isDigit
  match l2 with
  | '.' :: r =>
    let fp := r.takeWhile Char.isDigit
    let l3 := r.dropWhile Char.isDigit
    if ip.isEmpty && fp.isEmpty then none
    else
      match parseExpPart l3 with
      | some e => some (applyExp (p.1 * (digitsToNat (ip ++ fp) : Int)) (e - fp.length))
      | none => none
  | _ =>
    if ip.isEmpty then none
    else
      match parseExpPart l2 with
      | some e => some (applyExp (p.1 * (digitsToNat ip : Int)) e)
      | none => none

/-- A dataframe cell: a string, a float (modelled as a rational), or NaN. -/
inductive Cell where
  | str : String → Cell
  | num : Rat → Cell
  | na : Cell
deriving DecidableEq

/-- Column dtypes used in the `read_csv` call. -/
inductive Dtype where
  | str : Dtype
  | float : Dtype
deriving DecidableEq

/-- Column names of the `.dex` format, in file order. -/
def col_names : List String :=
  ["lon", "lat", "CT", "CA", "SA", "FA", "CB", "SB", "FB", "CC", "SC", "FC"]

/-- Column dtypes, in file order (`float` for `lon`, `lat`, `CC`, `SC`, `FC`;
`str` for the rest). -/
def col_types : List Dtype :=
  [Dtype.float, Dtype.float, Dtype.str, Dtype.str, Dtype.str, Dtype.str,
   Dtype.str, Dtype.str, Dtype.str, Dtype.float, Dtype.float, Dtype.float]

/-- The name → dtype association passed to `read_csv` (`dict(zip(col_names, col_types))`). -/
def types : List (String × Dtype) := col_names.zip col_types

/-- Read one whitespace-separated token under a column dtype, with
`na_values='X'`: the token `X` becomes NaN in every column; under the `str`
dtype any other token stays a string; under the `float` dtype it must parse
as a float, otherwise the read raises (`none`). -/
def readCell (t : Dtype) (tok : String) : Option Cell :=
  if tok = "X" then some Cell.na
  else
    match t with
    | Dtype.str => some (Cell.str tok)
    | Dtype.float => (parseFloat tok).map Cell.num

/-- A raw `.dex` row: the twelve whitespace-separated tokens of one line. -/
structure RawRow where
  lon : String
  lat : String
  CT : String
  CA : String
  SA : String
  FA : String
  CB : String
  SB : String
  FB : String
  CC : String
  SC : String
  FC : String
deriving DecidableEq

/-- A row as read by `read_csv`: each token decoded under its column's dtype. -/
structure Row where
  lon : Cell
  lat : Cell
  CT : Cell
  CA : Cell
  SA : Cell
  FA : Cell
  CB : Cell
  SB : Cell
  FB : Cell
  CC : Cell
  SC : Cell
  FC : Cell
deriving DecidableEq

/-- Decode one raw row column by column; any float-column parse failure
aborts the read of the file. -/
def readRow (r : RawRow) : Option Row := do
  let lon ← readCell Dtype.float r.lon
  let lat ← readCell Dtype.float r.lat
  let ct ← readCell Dtype.str r.CT
  let ca ← readCell Dtype.str r.CA
  let sa ← readCell Dtype.str r.SA
  let fa ← readCell Dtype.str r.FA
  let cb ← readCell Dtype.str r.CB
  let sb ← readCell Dtype.str r.SB
  let fb ← readCell Dtype.str r.FB
  let cc ← readCell Dtype.float r.CC
  let sc ← readCell Dtype.float r.SC
  let fc ← readCell Dtype.float r.FC
  some { lon := lon, lat := lat, CT := ct, CA := ca, SA := sa, FA := fa,
         CB := cb, SB := sb, FB := fb, CC := cc, SC := sc, FC := fc }

/-- One left-to-right, non-overlapping pass of `x.replace('9+', '9.9')` on
the character list of a string. -/
def stripPlusList : List Char → List Char
  | [] => []
  | [c] => [c]
  | c1 :: c2 :: rest =>
    if c1 = '9' ∧ c2 = '+' then '9' :: '.' :: '9' :: stripPlusList rest
    else c1 :: stripPlusList (c2 :: rest)

/-- `x.replace('.', '0')` on the character list of a string. -/
def stripDotsList (l : List Char) : List Char :=
  l.map fun c => if c = '.' then '0' else c

/-- Helper `_strip_plus` of `dex2ds`: on strings, replace `9+` by `9.9`;
any non-string (float or NaN) passes through unchanged. -/
def _strip_plus (x : Cell) : Cell :=
  match x with
  | Cell.str s => Cell.str (String.mk (stripPlusList s.toList))
  | x => x

/-- Helper `_strip_dots` of `dex2ds`: on strings, replace `.` by `0`;
any non-string (float or NaN) passes through unchanged. -/
def _strip_dots (x : Cell) : Cell :=
  match x with
  | Cell.str s => Cell.str (String.mk (stripDotsList s.toList))
  | x => x

/-- The `conv` dictionary of `_num_flags`, as its ordered key/value pairs. -/
def conv : List (String × Nat) :=
  [("IF", 1), ("missing", 2), ("Fast-ice", 3),
   ("1", 0), ("2", 0), ("3", 0), ("4", 0), ("5", 0),
   ("6", 0), ("7", 0), ("8", 0), ("9", 0),
   ("9+", 0), ("9.9", 0), ("10", 0)]

/-- Helper `_num_flags` of `dex2ds`: dictionary lookup `conv[x]`.
A key outside the dictionary — any unlisted string, a float, or NaN —
raises `KeyError` (`none`). -/
def _num_flags (x : Cell) : Option Nat :=
  match x with
  | Cell.str s => conv.lookup s
  | _ => none

/-- `pd.to_numeric(..., errors='coerce')` on one cell: a string is parsed
as a float, becoming NaN on failure; floats and NaN pass through. -/
def toNumericCoerce (x : Cell) : Cell :=
  match x with
  | Cell.str s =>
    match parseFloat s with
    | some q => Cell.num q
    | none => Cell.na
  | x => x

/-- A fully processed row: substitutions applied, egg-code columns coerced
to numeric, and the `flag` column appended. -/
structure ProcRow where
  lon : Cell
  lat : Cell
  CT : Cell
  CA : Cell
  SA : Cell
  FA : Cell
  CB : Cell
  SB : Cell
  FB : Cell
  CC : Cell
  SC : Cell
  FC : Cell
  flag : Nat
deriving DecidableEq

/-- The per-row body of `dex2ds`: `_strip_plus` on `CT`/`CA`, `_strip_dots`
on `SA`/`SB`/`SC`, `flag` from `_num_flags` on the substituted `CT`
(a `KeyError` aborts), then `pd.to_numeric(errors='coerce')` on the ten
egg-code columns. -/
def processRow (r : Row) : Option ProcRow :=
  match _num_flags (_strip_plus r.CT) with
  | none => none
  | some fl =>
    some { lon := r.lon, lat := r.lat,
           CT := toNumericCoerce (_strip_plus r.CT),
           CA := toNumericCoerce (_strip_plus r.CA),
           SA := toNumericCoerce (_strip_dots r.SA),
           FA := toNumericCoerce r.FA,
           CB := toNumericCoerce r.CB,
           SB := toNumericCoerce (_strip_dots r.SB),
           FB := toNumericCoerce r.FB,
           CC := toNumericCoerce r.CC,
           SC := toNumericCoerce (_strip_dots r.SC),
           FC := toNumericCoerce r.FC,
           flag := fl }

/-- Elementwise `Option`-valued map, aborting at the first failing element —
the failure behaviour of `df.apply` / `read_csv` over the rows of a file. -/
def mapO {α β : Type} (f : α → Option β) : List α → Option (List β)
  | [] => some []
  | a :: t =>
    match f a with
    | none => none
    | some b =>
      match mapO f t with
      | none => none
      | some bs => some (b :: bs)

/-- Distinct values of a list in order of first occurrence: the unique
coordinate values of an index level. -/
def distinctVals {α : Type} [DecidableEq α] : List α → List α
  | [] => []
  | a :: t => a :: (distinctVals t).filter (fun b => decide (b ≠ a))

/-- Pairwise distinctness of a list, the index-uniqueness requirement of
`DataFrame.to_xarray`. -/
def allDistinct {α : Type} [DecidableEq α] : List α → Bool
  | [] => true
  | a :: t => (!(t.contains a)) && allDistinct t

/-- Leftmost match of `re.findall('[0-9]{8}', s)`: the first position at
which eight consecutive digit characters start. -/
def firstDate8 : List Char → Option (List Char)
  | [] => none
  | c :: rest =>
    if ((c :: rest).take 8).length = 8 ∧ (((c :: rest).take 8).all Char.isDigit) = true then
      some ((c :: rest).take 8)
    else firstDate8 rest

/-- Gregorian leap year test. -/
def isLeap (y : Nat) : Bool :=
  (y % 4 == 0 && y % 100 != 0) || (y % 400 == 0)

/-- Days in a month of the Gregorian calendar. -/
def daysInMonth (y m : Nat) : Nat :=
  if m = 2 then (if isLeap y then 29 else 28)
  else if m = 4 ∨ m = 6 ∨ m = 9 ∨ m = 11 then 30
  else 31

/-- `pd.Timestamp('YYYY-MM-DD')`: a calendar-valid date yields the triple
(year, month, day); an invalid one raises (`none`). The 1677–2262
nanosecond-range bound of pandas timestamps is outside the model. -/
def mkTimestamp (y m d : Nat) : Option (Nat × Nat × Nat) :=
  if 1 ≤ m ∧ m ≤ 12 ∧ 1 ≤ d ∧ d ≤ daysInMonth y m then some (y, m, d) else none

/-- Slice an 8-digit match as `date_str[:4]-date_str[4:6]-date_str[6:]` and
parse it as a timestamp. -/
def dateOfDigits (l : List Char) : Option (Nat × Nat × Nat) :=
  mkTimestamp (digitsToNat (l.take 4)) (digitsToNat ((l.drop 4).take 2)) (digitsToNat (l.drop 6))

/-- The converted dataset: the coordinate values of the grid, the processed
rows backing the data variables, and the single time coordinate. -/
structure Dataset where
  lons : List Cell
  lats : List Cell
  rows : List ProcRow
  time : Nat × Nat × Nat
deriving DecidableEq

/-- Value of a data variable at one grid cell after `to_xarray`: the row
with the matching (lon, lat) index if any, NaN otherwise. -/
def gridCell (rows : List ProcRow) (f : ProcRow → Cell) (lo la : Cell) : Cell :=
  match rows.find? (fun r => r.lon == lo && r.lat == la) with
  | some r => f r
  | none => Cell.na

/-- `dataset.flag.where(~dataset.flag.isnull(), 4)`: fill NaN with 4. -/
def landFill (x : Cell) : Cell :=
  match x with
  | Cell.na => Cell.num 4
  | x => x

/-- The `flag` variable at one grid cell, after the land fill. -/
def Dataset.flagAt (ds : Dataset) (lo la : Cell) : Cell :=
  landFill (gridCell ds.rows (fun r => Cell.num (r.flag : Nat)) lo la)

/-- A data variable at one grid cell of the dataset. -/
def Dataset.varAt (ds : Dataset) (f : ProcRow → Cell) (lo la : Cell) : Cell :=
  gridCell ds.rows f lo la

/-- `dex2ds`, on the raw rows of the file named `file_`: read the rows,
apply the substitutions and flag lookup, require a unique (lon, lat) index
for `to_xarray`, and derive the time coordinate from the first 8-digit
substring of the file name. Every uncaught library exception is `none`. -/
def dex2ds (file_ : String) (raw : List RawRow) : Option Dataset :=
  match mapO readRow raw with
  | none => none
  | some rows0 =>
    match mapO processRow rows0 with
    | none => none
    | some rows =>
      if allDistinct (rows.map (fun r => (r.lon, r.lat))) then
        match firstDate8 file_.toList with
        | none => none
        | some d8 =>
          match dateOfDigits d8 with
          | none => none
          | some date =>
            some { lons := distinctVals (rows.map (fun r => r.lon)),
                   lats := distinctVals (rows.map (fun r => r.lat)),
                   rows := rows,
                   time := date }
      else none

/-- `os.path.basename` for POSIX paths: the part after the last `/`. -/
def basenameList (l : List Char) : List Char :=
  (l.reverse.takeWhile (fun c => c ≠ '/')).reverse

/-- Root of `os.path.splitext` on a basename: split at the last dot only if
some character strictly before it is not a dot (so `.bashrc` keeps its name). -/
def splitextRoot (b : List Char) : List Char :=
  let r := b.reverse
  let rest := r.dropWhile (fun c => c ≠ '.')
  match rest with
  | [] => b
  | _ :: root => if root.any (fun c => c ≠ '.') then root.reverse else b

/-- The default output name of the CLI: `'%s.nc' % stem` of the input path. -/
def defaultOut (f : String) : String :=
  String.mk (splitextRoot (basenameList f.toList)) ++ ".nc"

/-- The output file name chosen by the CLI loop for each input file:
the stem default when no output name was given or more than one input file
was passed, the user name otherwise. -/
def outNames (filenames : List String) (oname : Option String) : List String :=
  filenames.map fun f =>
    if oname = none ∨ filenames.length > 1 then defaultOut f
    else oname.getD (defaultOut f)

/-- A data variable of a possibly-failed conversion, at one grid cell. -/
def dsVarAt (o : Option Dataset) (f : ProcRow → Cell) (lo la : Cell) : Option Cell :=
  o.map fun ds => ds.varAt f lo la

/-- The flag variable of a possibly-failed conversion, at one grid cell. -/
def dsFlagAt (o : Option Dataset) (lo la : Cell) : Option Cell :=
  o.map fun ds => ds.flagAt lo la

/-- Does the character list contain the two-character pattern `9+`? -/
def has9plus : List Char → Bool
  | [] => false
  | [_] => false
  | c1 :: c2 :: rest => (c1 = '9' && c2 = '+') || has9plus (c2 :: rest)

/-- The code strings enumerated by the specification as the domain of the
code-to-flag lookup. -/
def ctCodes : List String :=
  ["IF", "missing", "Fast-ice", "1", "2", "3", "4", "5", "6", "7", "8", "9", "9+", "9.9", "10"]

/-- Example file name carrying the 8-digit date `20200315`. -/
def exFile : String := "GEC_H_20200315.dex"

/-- Example row whose total-concentration cell is the plus code `9+`. -/
def exRow1 : RawRow :=
  ⟨"-70.5", "48.0", "9+", "9+", "1.", "4", "1", "4.", "3", "X", "X", "X"⟩

/-- Example row carrying the embedded-dot stage code `4.` in `SA`. -/
def exRow2 : RawRow :=
  ⟨"-70.0", "48.0", "5", "5", "4.", "4", "X", "X", "X", "X", "X", "X"⟩

/-- Example row whose `CT` column holds the code `missing`. -/
def exRow3 : RawRow :=
  ⟨"-69.5", "48.0", "missing", "X", "X", "X", "X", "X", "X", "X", "X", "X"⟩

/-- Example row whose `CT` cell holds a string outside the `conv` dictionary. -/
def rowBadCT : RawRow :=
  ⟨"-70.5", "48.0", "QQ", "5", "4", "4", "1", "4", "3", "X", "X", "X"⟩

/-- Example row whose `CT` cell is the null sentinel `X`. -/
def rowCTX : RawRow :=
  ⟨"-70.5", "48.0", "X", "5", "4", "4", "1", "4", "3", "X", "X", "X"⟩

/-- Example row with the embedded-dot stage code `4.` in the float-typed
column `SC`. -/
def rowSCdot : RawRow :=
  ⟨"-70.5", "48.0", "5", "5", "4", "4", "1", "4", "3", "1", "4.", "3"⟩

/-- Example row with the non-numeric egg code `9+` in the float-typed
column `SC`. -/
def rowSCbad : RawRow :=
  ⟨"-70.5", "48.0", "5", "5", "4", "4", "1", "4", "3", "1", "9+", "3"⟩

/-- Example row with the non-numeric egg code `missing` in the float-typed
column `CC`. -/
def rowCCbad : RawRow :=
  ⟨"-70.5", "48.0", "5", "5", "4", "4", "1", "4", "3", "missing", "4", "3"⟩

/-- Example row with the non-numeric egg code `Fast-ice` in the float-typed
column `FC`. -/
def rowFCbad : RawRow :=
  ⟨"-70.5", "48.0", "5", "5", "4", "4", "1", "4", "3", "1", "4", "Fast-ice"⟩

/-! ### Helper lemmas -/

theorem mapO_eq_none_of_mem {α β : Type} (f : α → Option β) :
    ∀ {xs : List α} {x : α}, x ∈ xs → f x = none → mapO f xs = none := by
  intro xs
  induction xs with
  | nil => intro x hx _; cases hx
  | cons a t ih =>
    intro x hx hfx
    rcases List.mem_cons.mp hx with h | h
    · subst h; simp [mapO, hfx]
    · cases hfa : f a with
      | none => simp [mapO, hfa]
      | some b => simp [mapO, hfa, ih h hfx]

theorem mem_of_mapO_eq_some {α β : Type} (f : α → Option β) :
    ∀ {xs : List α} {ys : List β}, mapO f xs = some ys →
      ∀ y ∈ ys, ∃ x ∈ xs, f x = some y := by
  intro xs
  induction xs with
  | nil =>
    intro ys h y hy
    simp only [mapO, Option.some.injEq] at h
    subst h; cases hy
  | cons a t ih =>
    intro ys h y hy
    cases hfa : f a with
    | none => simp [mapO, hfa] at h
    | some b =>
      cases hmt : mapO f t with
      | none => simp [mapO, hfa, hmt] at h
      | some bs =>
        simp only [mapO, hfa, hmt, Option.some.injEq] at h
        subst h
        rcases List.mem_cons.mp hy with h | h
        · exact ⟨a, List.mem_cons_self a t, by rw [hfa, h]⟩
        · rcases ih hmt y h with ⟨x, hx, hfx⟩
          exact ⟨x, List.mem_cons_of_mem a hx, hfx⟩

theorem num_flags_le_three (x : Cell) (n : Nat) (h : _num_flags x = some n) : n ≤ 3 := by
  cases x with
  | str s =>
    simp only [_num_flags] at h
    rcases List.lookup_eq_some_iff.mp h with ⟨l₁, l₂, hl, -⟩
    have hmem : (s, n) ∈ conv := by
      rw [hl]; exact List.mem_append_right _ (List.mem_cons_self _ _)
    simp only [conv, List.mem_cons, List.not_mem_nil, or_false, Prod.mk.injEq] at hmem
    rcases hmem with h' | h' | h' | h' | h' | h' | h' | h' | h' | h' | h' | h' | h' | h' | h' <;>
      omega
  | num q => simp [_num_flags] at h
  | na => simp [_num_flags] at h

theorem processRow_eq_some (r : Row) (pr : ProcRow) (h : processRow r = some pr) :
    _num_flags (_strip_plus r.CT) = some pr.flag := by
  unfold processRow at h
  cases hnf : _num_flags (_strip_plus r.CT) with
  | none => rw [hnf] at h; cases h
  | some fl =>
    rw [hnf] at h
    injection h with h
    subst h
    rfl

theorem processRow_eq_none (r : Row) (h : _num_flags (_strip_plus r.CT) = none) :
    processRow r = none := by
  unfold processRow
  rw [h]

theorem dex2ds_eq_some (file_ : String) (raw : List RawRow) (ds : Dataset)
    (h : dex2ds file_ raw = some ds) :
    ∃ rows0, mapO readRow raw = some rows0 ∧ mapO processRow rows0 = some ds.rows ∧
      ∃ d8, firstDate8 file_.toList = some d8 ∧ dateOfDigits d8 = some ds.time := by
  unfold dex2ds at h
  split at h
  · cases h
  · rename_i rows0 h0
    split at h
    · cases h
    · rename_i rows h1
      split at h
      · split at h
        · cases h
        · rename_i d8 h2
          split at h
          · cases h
          · rename_i date h3
            injection h with h
            subst h
            exact ⟨rows0, h0, h1, d8, h2, h3⟩
      · cases h

theorem dex2ds_eq_none_of_row (file_ : String) (raw : List RawRow) (rows0 : List Row)
    (h0 : mapO readRow raw = some rows0) (r0 : Row) (hr : r0 ∈ rows0)
    (hnf : _num_flags (_strip_plus r0.CT) = none) :
    dex2ds file_ raw = none := by
  have h1 : mapO processRow rows0 = none :=
    mapO_eq_none_of_mem processRow hr (processRow_eq_none r0 hnf)
  simp only [dex2ds, h0, h1]

theorem dex2ds_eq_none_of_raw (file_ : String) (raw : List RawRow) (r : RawRow)
    (hr : r ∈ raw) (hread : readRow r = none) :
    dex2ds file_ raw = none := by
  simp only [dex2ds, mapO_eq_none_of_mem readRow hr hread]

theorem stripDotsList_idem (l : List Char) :
    stripDotsList (stripDotsList l) = stripDotsList l := by
  unfold stripDotsList
  rw [List.map_map]
  apply List.map_congr_left
  intro c _
  by_cases hc : c = '.'
  · subst hc; simp
  · simp [Function.comp, hc]

theorem strip_dots_idem (x : Cell) : _strip_dots (_strip_dots x) = _strip_dots x := by
  cases x with
  | str s => simp [_strip_dots, String.toList, stripDotsList_idem]
  | num q => rfl
  | na => rfl

theorem stripPlusList_eq_self (l : List Char) (h : has9plus l = false) :
    stripPlusList l = l := by
  induction l with
  | nil => rfl
  | cons c t ih =>
    cases t with
    | nil => rfl
    | cons c2 t2 =>
      rw [show has9plus (c :: c2 :: t2) = ((c = '9' && c2 = '+') || has9plus (c2 :: t2)) from rfl]
        at h
      rcases Bool.or_eq_false_iff.mp h with ⟨h1, h2⟩
      have hcond : ¬(c = '9' ∧ c2 = '+') := by
        rintro ⟨e1, e2⟩
        subst e1; subst e2
        simp at h1
      simp only [stripPlusList, if_neg hcond]
      rw [ih h2]

theorem stripPlusList_first_match (l₁ l₂ : List Char) (h : has9plus l₁ = false) :
    stripPlusList (l₁ ++ '9' :: '+' :: l₂) = l₁ ++ '9' :: '.' :: '9' :: stripPlusList l₂ := by
  induction l₁ with
  | nil => simp [stripPlusList]
  | cons c t ih =>
    cases t with
    | nil =>
      have hc : ¬(c = '9' ∧ '9' = '+') := by rintro ⟨-, h9⟩; cases h9
      simp only [List.cons_append, List.nil_append, stripPlusList, if_neg hc]
      simp [stripPlusList]
    | cons c2 t2 =>
      rw [show has9plus (c :: c2 :: t2) = ((c = '9' && c2 = '+') || has9plus (c2 :: t2)) from rfl]
        at h
      rcases Bool.or_eq_false_iff.mp h with ⟨h1, h2⟩
      have hcond : ¬(c = '9' ∧ c2 = '+') := by
        rintro ⟨e1, e2⟩
        subst e1; subst e2
        simp at h1
      simp only [List.cons_append, stripPlusList, if_neg hcond]
      exact congrArg (fun z => c :: z) (ih h2)

theorem has9plus_iff (l : List Char) :
    has9plus l = true ↔ ∃ l₁ l₂, l = l₁ ++ '9' :: '+' :: l₂ := by
  induction l with
  | nil =>
    simp only [has9plus]
    constructor
    · intro h; cases h
    · rintro ⟨l₁, l₂, h⟩; cases l₁ <;> cases h
  | cons c t ih =>
    cases t with
    | nil =>
      simp only [has9plus]
      constructor
      · intro h; cases h
      · rintro ⟨l₁, l₂, h⟩
        cases l₁ with
        | nil => cases h
        | cons x t1 =>
          injection h with e1 h
          cases t1 <;> cases h
    | cons c2 t2 =>
      rw [show has9plus (c :: c2 :: t2) = ((c = '9' && c2 = '+') || has9plus (c2 :: t2)) from rfl]
      constructor
      · intro h
        rcases Bool.or_eq_true_iff.mp h with h | h
        · rcases Bool.and_eq_true_iff.mp h with ⟨h1, h2⟩
          have e1 : c = '9' := of_decide_eq_true h1
          have e2 : c2 = '+' := of_decide_eq_true h2
          subst e1; subst e2
          exact ⟨[], t2, rfl⟩
        · rcases (ih.mp h) with ⟨l₁, l₂, he⟩
          exact ⟨c :: l₁, l₂, by rw [List.cons_append, ← he]⟩
      · rintro ⟨l₁, l₂, he⟩
        cases l₁ with
        | nil =>
          injection he with e1 he
          injection he with e2 he
          subst e1; subst e2
          simp
        | cons x t1 =>
          injection he with e1 he
          apply Bool.or_eq_true_iff.mpr
          right
          exact ih.mpr ⟨t1, l₂, he⟩

theorem firstDate8_isSome_iff (l : List Char) :
    (firstDate8 l).isSome = true ↔
      ∃ l₁ d l₂, l = l₁ ++ d ++ l₂ ∧ d.length = 8 ∧ d.all Char.isDigit = true := by
  induction l with
  | nil =>
    simp only [firstDate8, Option.isSome_none]
    constructor
    · intro h; cases h
    · rintro ⟨l₁, d, l₂, he, hlen, -⟩
      have hlength := congrArg List.length he
      simp only [List.length_nil, List.length_append, hlen] at hlength
      omega
  | cons c t ih =>
    by_cases hcond : ((c :: t).take 8).length = 8 ∧ (((c :: t).take 8).all Char.isDigit) = true
    · rw [show firstDate8 (c :: t) =
        (if ((c :: t).take 8).length = 8 ∧ (((c :: t).take 8).all Char.isDigit) = true then
          some ((c :: t).take 8) else firstDate8 t) from rfl, if_pos hcond]
      simp only [Option.isSome_some, true_iff]
      exact ⟨[], (c :: t).take 8, (c :: t).drop 8,
        by rw [List.nil_append, List.take_append_drop], hcond.1, hcond.2⟩
    · rw [show firstDate8 (c :: t) =
        (if ((c :: t).take 8).length = 8 ∧ (((c :: t).take 8).all Char.isDigit) = true then
          some ((c :: t).take 8) else firstDate8 t) from rfl, if_neg hcond, ih]
      constructor
      · rintro ⟨l₁, d, l₂, he, hlen, hdig⟩
        exact ⟨c :: l₁, d, l₂, by rw [he]; rfl, hlen, hdig⟩
      · rintro ⟨l₁, d, l₂, he, hlen, hdig⟩
        cases l₁ with
        | nil =>
          exfalso
          apply hcond
          have hd : (c :: t) = d ++ l₂ := by rw [he]; rfl
          have htake : (c :: t).take 8 = d := by rw [hd, List.take_left' hlen]
          rw [htake]
          exact ⟨hlen, hdig⟩
        | cons x t1 =>
          injection he with e1 he
          exact ⟨t1, d, l₂, he, hlen, hdig⟩

/-- `rowBadCT` as decoded by `readRow`. -/
def rowBadCTRead : Row :=
  ⟨Cell.num (mkRat (-141) 2), Cell.num 48, Cell.str "QQ", Cell.str "5", Cell.str "4",
   Cell.str "4", Cell.str "1", Cell.str "4", Cell.str "3", Cell.na, Cell.na, Cell.na⟩

/-- `exRow3` as decoded by `readRow`. -/
def exRow3Read : Row :=
  ⟨Cell.num (mkRat (-139) 2), Cell.num 48, Cell.str "missing", Cell.na, Cell.na, Cell.na,
   Cell.na, Cell.na, Cell.na, Cell.na, Cell.na, Cell.na⟩

theorem num_flags_eq_none_of_not_mem (s : String) (hs : s ∉ ctCodes) :
    _num_flags (Cell.str s) = none := by
  simp only [ctCodes, List.mem_cons, List.not_mem_nil, or_false, not_or] at hs
  obtain ⟨h1, h2, h3, h4, h5, h6, h7, h8, h9, h10, h11, h12, h13, h14, h15⟩ := hs
  simp only [_num_flags]
  apply List.lookup_eq_none_iff.mpr
  intro p hp
  simp only [conv, List.mem_cons, List.not_mem_nil, or_false] at hp
  rcases hp with rfl | rfl | rfl | rfl | rfl | rfl | rfl | rfl | rfl | rfl | rfl | rfl | rfl |
    rfl | rfl <;> simp only [bne_iff_ne, ne_eq] <;> assumption

/-! ### Claim theorems -/

/-- C1, counterexample to the count: the specification's code set
{`IF`, `missing`, `Fast-ice`, `1`..`9`, `9+`, `9.9`, `10`} has fifteen
pairwise-distinct elements, not fourteen, and the lookup succeeds on
every one of them. -/
theorem ctCodes_has_fifteen_codes :
    allDistinct ctCodes = true ∧ ctCodes.length = 15 ∧ ¬ctCodes.length = 14 ∧
    (ctCodes.all fun s => (_num_flags (Cell.str s)).isSome) = true := by decide

/-- C1 (amended): the code-to-flag lookup maps `IF` to 1, `missing` to 2,
`Fast-ice` to 3 and each of `1`..`9`, `9+`, `9.9`, `10` to 0; it succeeds on
exactly this fifteen-element code set, fails (`KeyError`) on every other
string, and such a failure on any row's `CT` value aborts the whole
conversion of the file. -/
theorem num_flags_domain_and_abort :
    _num_flags (Cell.str "IF") = some 1 ∧
    _num_flags (Cell.str "missing") = some 2 ∧
    _num_flags (Cell.str "Fast-ice") = some 3 ∧
    (∀ s ∈ ["1", "2", "3", "4", "5", "6", "7", "8", "9", "9+", "9.9", "10"],
      _num_flags (Cell.str s) = some 0) ∧
    (∀ s : String, s ∉ ctCodes → _num_flags (Cell.str s) = none) ∧
    (∀ file_ : String, ∀ raw : List RawRow, ∀ rows0 : List Row,
      mapO readRow raw = some rows0 → ∀ r0 ∈ rows0,
        _num_flags (_strip_plus r0.CT) = none → dex2ds file_ raw = none) := by
  refine ⟨by decide, by decide, by decide, by decide, num_flags_eq_none_of_not_mem, ?_⟩
  intro file_ raw rows0 h0 r0 hr hnf
  exact dex2ds_eq_none_of_row file_ raw rows0 h0 r0 hr hnf

/-- C1 witness: a code string outside the dictionary yields `KeyError`
(`none`), and a file containing such a `CT` value converts to nothing. -/
theorem num_flags_domain_and_abort_witness :
    _num_flags (Cell.str "QQ") = none ∧ dex2ds exFile [rowBadCT] = none := by
  constructor
  · exact num_flags_domain_and_abort.2.2.2.2.1 "QQ" (by decide)
  · exact num_flags_domain_and_abort.2.2.2.2.2 exFile [rowBadCT] [rowBadCTRead]
      (by decide) rowBadCTRead (by decide) (by decide)

/-- C3: `_strip_plus` leaves floats and NaN unchanged, leaves every string
without an occurrence of `9+` unchanged, and rewrites the leftmost `9+` of
any string containing one to `9.9`, continuing on the remainder; `has9plus`
characterizes exactly the strings containing `9+`. -/
theorem strip_plus_spec :
    (∀ q : Rat, _strip_plus (Cell.num q) = Cell.num q) ∧
    (_strip_plus Cell.na = Cell.na) ∧
    (∀ s : String, has9plus s.toList = false → _strip_plus (Cell.str s) = Cell.str s) ∧
    (∀ l : List Char, has9plus l = true ↔ ∃ l₁ l₂, l = l₁ ++ '9' :: '+' :: l₂) ∧
    (∀ l₁ l₂ : List Char, has9plus l₁ = false →
      stripPlusList (l₁ ++ '9' :: '+' :: l₂) = l₁ ++ '9' :: '.' :: '9' :: stripPlusList l₂) := by
  refine ⟨fun q => rfl, rfl, ?_, has9plus_iff, stripPlusList_first_match⟩
  intro s h
  cases s with
  | mk data =>
    simp only [_strip_plus, String.toList] at *
    rw [stripPlusList_eq_self data h]

/-- C3 witness: a concrete string with a `9+` occurrence is rewritten, and a
concrete string without one passes through. -/
theorem strip_plus_spec_witness :
    _strip_plus (Cell.str "a9+b") = Cell.str "a9.9b" ∧
    _strip_plus (Cell.str "8") = Cell.str "8" := by
  constructor
  · have h := strip_plus_spec.2.2.2.2 ['a'] ['b'] (by decide)
    simp only [_strip_plus]
    rw [show ("a9+b" : String).toList = ['a'] ++ '9' :: '+' :: ['b'] from rfl, h]
    rfl
  · exact strip_plus_spec.2.2.1 "8" (by decide)

/-- C7: after the substitutions, any egg-code cell whose string fails float
parsing is coerced to NaN by `pd.to_numeric(errors='coerce')` without
raising, and the per-row processing succeeds whenever the flag lookup on
`CT` does — no other cell can abort it. -/
theorem to_numeric_coerces_silently :
    (∀ s : String, parseFloat s = none → toNumericCoerce (Cell.str s) = Cell.na) ∧
    (∀ r : Row, ∀ n : Nat, _num_flags (_strip_plus r.CT) = some n →
      (processRow r).isSome = true) := by
  constructor
  · intro s h; simp [toNumericCoerce, h]
  · intro r n h; simp [processRow, h]

/-- C7 witness: the unparseable string `Fast-ice` coerces to NaN, and a row
whose `CT` is `missing` (with every other cell NaN) processes successfully. -/
theorem to_numeric_coerces_silently_witness :
    toNumericCoerce (Cell.str "Fast-ice") = Cell.na ∧
    (processRow exRow3Read).isSome = true := by
  constructor
  · exact to_numeric_coerces_silently.1 "Fast-ice" (by decide)
  · exact to_numeric_coerces_silently.2 exRow3Read 2 (by decide)

/-- C9: the `CT` sentinel `X` is read as NaN (a non-string), `_strip_plus`
passes NaN through, the flag lookup raises `KeyError` on NaN, and so a file
with a null `CT` cell converts to nothing rather than to flag 2. -/
theorem null_ct_aborts :
    readCell Dtype.str "X" = some Cell.na ∧
    _strip_plus Cell.na = Cell.na ∧
    _num_flags Cell.na = none ∧
    dex2ds exFile [rowCTX] = none := by decide

theorem parseFloat_digit_zero (c : Char) (hc : c.isDigit = true) :
    parseFloat (String.mk [c, '0']) = some (mkRat ((10 * (c.toNat - 48) : Nat) : Int) 1) := by
  have hne1 : ¬(c = '-') := fun h => by subst h; exact absurd hc (by decide)
  have hne2 : ¬(c = '+') := fun h => by subst h; exact absurd hc (by decide)
  have h0 : ('0' : Char).isDigit = true := by decide
  simp only [parseFloat, String.toList, if_neg hne1, if_neg hne2, List.takeWhile_cons, hc, h0,
    if_true, List.takeWhile_nil, List.dropWhile_cons, List.dropWhile_nil, parseExpPart]
  simp only [applyExp, le_refl, if_pos, Int.toNat_zero, pow_zero, mul_one, one_mul,
    Option.some.injEq, Cell.num.injEq, List.isEmpty_cons, Bool.false_eq_true, if_false]
  congr 1
  simp only [digitsToNat, List.foldl, show ('0' : Char).toNat = 48 from rfl]
  omega

/-- C2 counterexample: the stage column `SC` is read with the float dtype,
so the embedded-dot code `4.` is parsed at read time to the float 4 and the
dot substitution leaves it untouched: the converted `SC` value is 4, not
the 40 the claim requires for `SC`. -/
theorem sc_dot_code_not_times_ten :
    dsVarAt (dex2ds exFile [rowSCdot]) (fun r => r.SC) (Cell.num (mkRat (-141) 2)) (Cell.num 48)
      = some (Cell.num 4) ∧ ¬(Cell.num 4 = Cell.num 40) := by decide

/-- C2 (amended): `SA` and `SB` are read as strings and there a digit-dot
stage code `d.` is rewritten by the dot substitution to `d0`, an idempotent
step whose result parses to ten times the digit; `SC` however is read with
the float dtype, so its cells are never strings and the substitution does
not apply. -/
theorem dot_code_times_ten_on_sa_sb :
    types.lookup "SA" = some Dtype.str ∧
    types.lookup "SB" = some Dtype.str ∧
    types.lookup "SC" = some Dtype.float ∧
    (∀ x : Cell, _strip_dots (_strip_dots x) = _strip_dots x) ∧
    (∀ c : Char, c.isDigit = true →
      readCell Dtype.str (String.mk [c, '.']) = some (Cell.str (String.mk [c, '.'])) ∧
      _strip_dots (Cell.str (String.mk [c, '.'])) = Cell.str (String.mk [c, '0']) ∧
      toNumericCoerce (_strip_dots (Cell.str (String.mk [c, '.'])))
        = Cell.num (mkRat ((10 * (c.toNat - 48) : Nat) : Int) 1)) := by
  refine ⟨by decide, by decide, by decide, strip_dots_idem, ?_⟩
  intro c hc
  have hdot : ¬(c = '.') := fun h => by subst h; exact absurd hc (by decide)
  have hX : ¬(String.mk [c, '.'] = "X") := by
    intro h
    have h2 : [c, '.'] = ['X'] := congrArg String.data h
    injection h2 with e1 e2
    cases e2
  have hsub : _strip_dots (Cell.str (String.mk [c, '.'])) = Cell.str (String.mk [c, '0']) := by
    simp [_strip_dots, stripDotsList, String.toList, hdot]
  refine ⟨by simp [readCell, hX], hsub, ?_⟩
  rw [hsub]
  simp [toNumericCoerce, parseFloat_digit_zero c hc]

/-- C2 witness: the digit `4` with an embedded dot becomes `40`, which
parses to the float 40 = 10 × 4. -/
theorem dot_code_times_ten_on_sa_sb_witness :
    Char.isDigit '4' = true ∧
    toNumericCoerce (_strip_dots (Cell.str (String.mk ['4', '.']))) = Cell.num (mkRat 40 1) := by
  refine ⟨by decide, ?_⟩
  have h := (dot_code_times_ten_on_sa_sb.2.2.2.2 '4' (by decide)).2.2
  rw [h]
  decide

/-- C10: `CC`, `SC` and `FC` are declared with the float dtype; non-numeric
egg-code strings (`9+`, `missing`, `Fast-ice`) fail the float read, any such
failure in `CC`, `SC` or `FC` makes the whole row read fail and so aborts
the conversion; and `4.` in `SC` is read as the literal float 4, which the
dot substitution leaves unchanged instead of producing 40. -/
theorem float_columns_abort_on_egg_strings :
    types.lookup "CC" = some Dtype.float ∧
    types.lookup "SC" = some Dtype.float ∧
    types.lookup "FC" = some Dtype.float ∧
    parseFloat "9+" = none ∧
    parseFloat "missing" = none ∧
    parseFloat "Fast-ice" = none ∧
    (∀ tok : String, ¬tok = "X" → parseFloat tok = none → readCell Dtype.float tok = none) ∧
    (∀ r : RawRow,
      readCell Dtype.float r.CC = none ∨ readCell Dtype.float r.SC = none ∨
        readCell Dtype.float r.FC = none →
      readRow r = none) ∧
    (∀ file_ : String, ∀ raw : List RawRow, ∀ r ∈ raw, readRow r = none →
      dex2ds file_ raw = none) ∧
    readCell Dtype.float "4." = some (Cell.num 4) ∧
    _strip_dots (Cell.num 4) = Cell.num 4 ∧
    dsVarAt (dex2ds exFile [rowSCdot]) (fun r => r.SC) (Cell.num (mkRat (-141) 2)) (Cell.num 48)
      = some (Cell.num 4) := by
  refine ⟨by decide, by decide, by decide, by decide, by decide, by decide, ?_, ?_, ?_,
    by decide, by decide, by decide⟩
  · intro tok h1 h2
    simp [readCell, h1, h2]
  · intro r hbad
    unfold readRow
    rcases hbad with h | h | h
    · rw [h]
      cases readCell Dtype.float r.lon <;> try rfl
      cases readCell Dtype.float r.lat <;> try rfl
      cases readCell Dtype.str r.CT <;> try rfl
      cases readCell Dtype.str r.CA <;> try rfl
      cases readCell Dtype.str r.SA <;> try rfl
      cases readCell Dtype.str r.FA <;> try rfl
      cases readCell Dtype.str r.CB <;> try rfl
      cases readCell Dtype.str r.SB <;> try rfl
      cases readCell Dtype.str r.FB <;> rfl
    · rw [h]
      cases readCell Dtype.float r.lon <;> try rfl
      cases readCell Dtype.float r.lat <;> try rfl
      cases readCell Dtype.str r.CT <;> try rfl
      cases readCell Dtype.str r.CA <;> try rfl
      cases readCell Dtype.str r.SA <;> try rfl
      cases readCell Dtype.str r.FA <;> try rfl
      cases readCell Dtype.str r.CB <;> try rfl
      cases readCell Dtype.str r.SB <;> try rfl
      cases readCell Dtype.str r.FB <;> try rfl
      cases readCell Dtype.float r.CC <;> rfl
    · rw [h]
      cases readCell Dtype.float r.lon <;> try rfl
      cases readCell Dtype.float r.lat <;> try rfl
      cases readCell Dtype.str r.CT <;> try rfl
      cases readCell Dtype.str r.CA <;> try rfl
      cases readCell Dtype.str r.SA <;> try rfl
      cases readCell Dtype.str r.FA <;> try rfl
      cases readCell Dtype.str r.CB <;> try rfl
      cases readCell Dtype.str r.SB <;> try rfl
      cases readCell Dtype.str r.FB <;> try rfl
      cases readCell Dtype.float r.CC <;> try rfl
      cases readCell Dtype.float r.SC <;> rfl
  · intro file_ raw r hr hread
    exact dex2ds_eq_none_of_raw file_ raw r hr hread

/-- C10 witness: `missing` in `CC`, `9+` in `SC` and `Fast-ice` in `FC` each
fail the cell read, the row read, and the whole conversion. -/
theorem float_columns_abort_on_egg_strings_witness :
    readCell Dtype.float "9+" = none ∧
    readRow rowCCbad = none ∧ readRow rowSCbad = none ∧ readRow rowFCbad = none ∧
    dex2ds exFile [rowCCbad] = none ∧ dex2ds exFile [rowSCbad] = none ∧
    dex2ds exFile [rowFCbad] = none := by
  have hcell9 : readCell Dtype.float "9+" = none :=
    float_columns_abort_on_egg_strings.2.2.2.2.2.2.1 "9+" (by decide) (by decide)
  have hcellm : readCell Dtype.float "missing" = none :=
    float_columns_abort_on_egg_strings.2.2.2.2.2.2.1 "missing" (by decide) (by decide)
  have hcellf : readCell Dtype.float "Fast-ice" = none :=
    float_columns_abort_on_egg_strings.2.2.2.2.2.2.1 "Fast-ice" (by decide) (by decide)
  have hrowCC : readRow rowCCbad = none :=
    float_columns_abort_on_egg_strings.2.2.2.2.2.2.2.1 rowCCbad (Or.inl hcellm)
  have hrowSC : readRow rowSCbad = none :=
    float_columns_abort_on_egg_strings.2.2.2.2.2.2.2.1 rowSCbad (Or.inr (Or.inl hcell9))
  have hrowFC : readRow rowFCbad = none :=
    float_columns_abort_on_egg_strings.2.2.2.2.2.2.2.1 rowFCbad (Or.inr (Or.inr hcellf))
  exact ⟨hcell9, hrowCC, hrowSC, hrowFC,
    float_columns_abort_on_egg_strings.2.2.2.2.2.2.2.2.1 exFile [rowCCbad]
      rowCCbad (List.mem_cons_self _ _) hrowCC,
    float_columns_abort_on_egg_strings.2.2.2.2.2.2.2.2.1 exFile [rowSCbad]
      rowSCbad (List.mem_cons_self _ _) hrowSC,
    float_columns_abort_on_egg_strings.2.2.2.2.2.2.2.2.1 exFile [rowFCbad]
      rowFCbad (List.mem_cons_self _ _) hrowFC⟩

/-- The example dataset converted from the three example rows. -/
def exDS : Dataset :=
  (dex2ds exFile [exRow1, exRow2, exRow3]).getD ⟨[], [], [], (0, 0, 0)⟩

/-- The processed row of `exRow3` (the `missing` row). -/
def exProc3 : ProcRow :=
  ⟨Cell.num (mkRat (-139) 2), Cell.num 48, Cell.na, Cell.na, Cell.na, Cell.na, Cell.na,
   Cell.na, Cell.na, Cell.na, Cell.na, Cell.na, 2⟩

/-- C4: in a converted dataset, a grid cell matching no input row carries
flag 4 (land) after the fill step, and a grid cell matching an input row
keeps that row's looked-up flag, which is one of 0, 1, 2, 3. -/
theorem land_fill_flags (file_ : String) (raw : List RawRow) (ds : Dataset)
    (h : dex2ds file_ raw = some ds) (lo la : Cell) :
    (ds.rows.find? (fun r => r.lon == lo && r.lat == la) = none →
      ds.flagAt lo la = Cell.num 4) ∧
    (∀ pr : ProcRow, ds.rows.find? (fun r => r.lon == lo && r.lat == la) = some pr →
      ds.flagAt lo la = Cell.num ((pr.flag : Nat) : Rat) ∧
      (pr.flag = 0 ∨ pr.flag = 1 ∨ pr.flag = 2 ∨ pr.flag = 3)) := by
  obtain ⟨rows0, h0, h1, -⟩ := dex2ds_eq_some file_ raw ds h
  constructor
  · intro hfind
    simp [Dataset.flagAt, gridCell, hfind, landFill]
  · intro pr hfind
    have hmem : pr ∈ ds.rows := List.mem_of_find?_eq_some hfind
    obtain ⟨r0, -, hpr⟩ := mem_of_mapO_eq_some processRow h1 pr hmem
    have hflag := processRow_eq_some r0 pr hpr
    have hle := num_flags_le_three _ _ hflag
    exact ⟨by simp [Dataset.flagAt, gridCell, hfind, landFill], by omega⟩

/-- C4 witness: in the example dataset the grid cell (0, 48) matches no
input row and carries flag 4; the cell of the `missing` row keeps flag 2. -/
theorem land_fill_flags_witness :
    exDS.flagAt (Cell.num 0) (Cell.num 48) = Cell.num 4 ∧
    exDS.flagAt (Cell.num (mkRat (-139) 2)) (Cell.num 48) = Cell.num 2 := by
  have h4 := land_fill_flags exFile [exRow1, exRow2, exRow3] exDS (by decide)
    (Cell.num 0) (Cell.num 48)
  have h2 := land_fill_flags exFile [exRow1, exRow2, exRow3] exDS (by decide)
    (Cell.num (mkRat (-139) 2)) (Cell.num 48)
  refine ⟨h4.1 (by decide), ?_⟩
  have he := (h2.2 exProc3 (by decide)).1
  rw [he]
  decide

/-- C5: when a conversion succeeds its single time coordinate is the triple
(year, month, day) sliced from the first 8-digit run of the file name;
`firstDate8` finds a match exactly when the name contains eight consecutive
digits; and when it contains none the conversion aborts. -/
theorem time_from_filename :
    (∀ file_ : String, ∀ raw : List RawRow, ∀ ds : Dataset, dex2ds file_ raw = some ds →
      ∃ d8, firstDate8 file_.toList = some d8 ∧
        ds.time = (digitsToNat (d8.take 4), digitsToNat ((d8.drop 4).take 2),
          digitsToNat (d8.drop 6))) ∧
    (∀ l : List Char, (firstDate8 l).isSome = true ↔
      ∃ l₁ d l₂, l = l₁ ++ d ++ l₂ ∧ d.length = 8 ∧ d.all Char.isDigit = true) ∧
    (∀ file_ : String, ∀ raw : List RawRow, firstDate8 file_.toList = none →
      dex2ds file_ raw = none) := by
  refine ⟨?_, firstDate8_isSome_iff, ?_⟩
  · intro file_ raw ds h
    obtain ⟨rows0, -, -, d8, h2, h3⟩ := dex2ds_eq_some file_ raw ds h
    refine ⟨d8, h2, ?_⟩
    unfold dateOfDigits mkTimestamp at h3
    split at h3
    · injection h3 with h3
      exact h3.symm
    · cases h3
  · intro file_ raw hnone
    unfold dex2ds
    split
    · rfl
    · split
      · rfl
      · split
        · have hnone2 : firstDate8 file_.data = none := hnone
          simp [hnone2]
        · rfl

/-- C5 witness: the example file name yields the time (2020, 3, 15), and a
name with no 8-digit run converts to nothing. -/
theorem time_from_filename_witness :
    (∃ d8, firstDate8 exFile.toList = some d8 ∧
      exDS.time = (digitsToNat (d8.take 4), digitsToNat ((d8.drop 4).take 2),
        digitsToNat (d8.drop 6))) ∧
    dex2ds "nodate.dex" [exRow1] = none := by
  constructor
  · exact time_from_filename.1 exFile [exRow1, exRow2, exRow3] exDS (by decide)
  · exact time_from_filename.2.2 "nodate.dex" [exRow1] (by decide)

/-- C6: the three example rows — one `9+` concentration, one embedded-dot
stage code, one `missing` code column — convert to a 3-point grid carrying
the substituted numbers 9.9 and 40 and the flags 0, 0, 2. -/
theorem three_row_end_to_end :
    (dex2ds exFile [exRow1, exRow2, exRow3]).map (fun ds => (ds.lons.length, ds.lats.length))
      = some (3, 1) ∧
    dsVarAt (dex2ds exFile [exRow1, exRow2, exRow3]) (fun r => r.CT)
      (Cell.num (mkRat (-141) 2)) (Cell.num 48) = some (Cell.num (mkRat 99 10)) ∧
    dsVarAt (dex2ds exFile [exRow1, exRow2, exRow3]) (fun r => r.SA)
      (Cell.num (-70)) (Cell.num 48) = some (Cell.num 40) ∧
    dsFlagAt (dex2ds exFile [exRow1, exRow2, exRow3])
      (Cell.num (mkRat (-141) 2)) (Cell.num 48) = some (Cell.num 0) ∧
    dsFlagAt (dex2ds exFile [exRow1, exRow2, exRow3])
      (Cell.num (-70)) (Cell.num 48) = some (Cell.num 0) ∧
    dsFlagAt (dex2ds exFile [exRow1, exRow2, exRow3])
      (Cell.num (mkRat (-139) 2)) (Cell.num 48) = some (Cell.num 2) := by decide

/-- C8: the CLI writes one output per input file; with a single input and an
explicit output name that name is used; with several inputs, or no explicit
name, every output name is the input's stem with extension `.nc`. -/
theorem cli_output_names :
    (∀ fl : List String, ∀ o : Option String, (outNames fl o).length = fl.length) ∧
    (∀ f : String, ∀ o : String, outNames [f] (some o) = [o]) ∧
    (∀ fl : List String, ∀ o : Option String, 1 < fl.length →
      outNames fl o = fl.map defaultOut) ∧
    (∀ fl : List String, outNames fl none = fl.map defaultOut) := by
  refine ⟨?_, ?_, ?_, ?_⟩
  · intro fl o; simp [outNames]
  · intro f o; simp [outNames]
  · intro fl o h
    unfold outNames
    apply List.map_congr_left
    intro f _
    rw [if_pos (Or.inr h)]
  · intro fl
    unfold outNames
    apply List.map_congr_left
    intro f _
    rw [if_pos (Or.inl rfl)]

/-- C8 witness: two inputs with an explicit output name still get their stem
defaults, and a single input with an explicit name gets that name. -/
theorem cli_output_names_witness :
    outNames ["a/b_20200101.dex", "c.dex"] (some "out.nc") = ["b_20200101.nc", "c.nc"] ∧
    outNames ["a/b_20200101.dex"] (some "out.nc") = ["out.nc"] := by
  constructor
  · have h := cli_output_names.2.2.1 ["a/b_20200101.dex", "c.dex"] (some "out.nc") (by decide)
    rw [h]
    decide
  · exact cli_output_names.2.1 "a/b_20200101.dex" "out.nc"

end Dex2nc
